import Mathlib

/-!
Shallow embedding of the capacity-discovery scripts of this repository:
`src/scripts/smart_context_test.py`, `src/scripts/context_length_test.py` and
`src/scripts/batch_context_test.py`.

Conventions of the embedding:
- The result of one `requests.post` call to the serving endpoint is a value of
  `CallResult`: an HTTP response (status code, endpoint-reported
  `prompt_eval_count` and `eval_count`, body text), a raised `requests.Timeout`,
  or any other raised exception (transport failure).  Search loops are folds
  over a list of `(parameter, CallResult)` pairs: the parameters the loop would
  probe zipped with the endpoint behaviour at each probe.  Pairs situated
  after a loop break never influence the result, exactly like the calls the
  scripts never issue.
- Decimal literals of the source (0.8, 0.9, 1.1, 0.85) denote exact rationals,
  and the comparisons are transcribed over ℕ with both sides scaled by the
  denominator, so that every definition evaluates in the kernel:
  `t < ia * 0.8` becomes `10 * t < 8 * ia`, `t <= p * 1.1` becomes
  `10 * t ≤ 11 * p`, and Python `int(x * 0.9)` (truncation toward zero of a
  nonnegative value, i.e. the floor) becomes `9 * x / 10` in ℕ.  Bridging
  lemmas below restate each of these in ℚ form and prove the two readings
  equal.
- Python dict keys that a failure record does not carry are fixed at
  0 / false / "" here; the scripts never read them on failure records.
-/

namespace Fortemi

/-- Outcome of one `requests.post` call as the scripts can observe it: a
response carrying an HTTP status code with the endpoint counters
`prompt_eval_count` and `eval_count` and the body text, a raised
`requests.Timeout`, or any other raised exception (connection/transport
failure).  The `msg` of the two exception cases is the Python `str(e)`. -/
inductive CallResult where
  | response (status : Nat) (prompt_eval_count : Nat) (eval_count : Nat) (text : String)
  | timeout (msg : String)
  | transport (msg : String)
  deriving DecidableEq, Repr

/-! ## smart_context_test.py -/

/-- The value `input_approx` computed in `test_context` of
`smart_context_test.py`: the prompt is `"test "` repeated `num_ctx // 2` times
(5 characters each), and the estimate is `len(prompt) // 4`. -/
def input_approx (num_ctx : Nat) : Nat := (5 * (num_ctx / 2)) / 4

/-- Truncation classifier of `test_context` in `smart_context_test.py`:
`tokens < input_approx * 0.8`, scaled by 10. -/
def smartTruncated (ia tokens : Nat) : Bool :=
  decide (10 * tokens < 8 * ia)

/-- Truncation classifier of `test_single_context` in `context_length_test.py`:
`prompt_eval < actual_tokens * 0.9`, scaled by 10. -/
def ctxTruncated (actual prompt_eval : Nat) : Bool :=
  decide (10 * prompt_eval < 9 * actual)

/-- Result dict of `test_context` in `smart_context_test.py`. -/
structure SmartOutcome where
  success : Bool
  input_approx : Nat
  tokens_processed : Nat
  truncated : Bool
  error : String
  deriving DecidableEq, Repr

/-- The probe executor `test_context` of `smart_context_test.py`.  HTTP 200
yields a success record with the reported `prompt_eval_count` and the
truncation flag; a non-200 status yields a failure record with reason
`"HTTP <status>"`; a raised exception of either kind is caught by the single
`except Exception` handler and yields a failure record with reason
`str(e)[:50]`. -/
def smart_test_context (num_ctx : Nat) (call : CallResult) : SmartOutcome :=
  match call with
  | .response status pe _ _ =>
    if status = 200 then
      { success := true
        input_approx := input_approx num_ctx
        tokens_processed := pe
        truncated := smartTruncated (input_approx num_ctx) pe
        error := "" }
    else
      { success := false, input_approx := 0, tokens_processed := 0,
        truncated := false, error := "HTTP " ++ toString status }
  | .timeout msg =>
      { success := false, input_approx := 0, tokens_processed := 0,
        truncated := false, error := msg.take 50 }
  | .transport msg =>
      { success := false, input_approx := 0, tokens_processed := 0,
        truncated := false, error := msg.take 50 }

/-- Plateau test of `find_native_limit` in `smart_context_test.py`:
`tokens <= prev_tokens * 1.1 and prev_tokens > 0`, scaled by 10. -/
def smartPlateau (prev tokens : Nat) : Bool :=
  decide (10 * tokens ≤ 11 * prev ∧ 0 < prev)

/-- The `hardware_limit` field of the result dict of `find_native_limit`: the
Python value is the integer `hardware_limit` when truthy (nonzero) and the
string `"not reached"` otherwise, so the field varies between an integer and a
string. -/
inductive HardwareLimitField where
  | tokens (n : Nat)
  | notReached
  deriving DecidableEq, Repr

/-- Result dict of `find_native_limit` in `smart_context_test.py` (the fields
the claims are about). -/
structure SmartResult where
  tests : List (Nat × SmartOutcome)
  native_context : Nat
  hardware_limit : HardwareLimitField
  recommended_input : Nat
  deriving DecidableEq, Repr

/-- The probe loop of `find_native_limit` in `smart_context_test.py`, with
state `(prev_tokens, native_limit, hardware_limit)` and the accumulated test
records (in reverse).  On a failed probe: `hardware_limit = prev_tokens`,
break.  On a truncated probe: `native_limit = tokens`, break.  On a plateaued
probe: `native_limit = tokens`, break.  Otherwise `prev_tokens` and
`native_limit` both become `tokens` and the loop continues. -/
def findNativeAux : List (Nat × CallResult) → Nat → Nat → Nat →
    List (Nat × SmartOutcome) → List (Nat × SmartOutcome) × Nat × Nat
  | [], _, native, hw, acc => (acc.reverse, native, hw)
  | (nc, call) :: rest, prev, native, hw, acc =>
    let t := smart_test_context nc call
    let acc2 := (nc, t) :: acc
    if t.success = false then (acc2.reverse, native, prev)
    else if t.truncated = true then (acc2.reverse, t.tokens_processed, hw)
    else if smartPlateau prev t.tokens_processed = true then
      (acc2.reverse, t.tokens_processed, hw)
    else findNativeAux rest t.tokens_processed t.tokens_processed hw acc2

/-- The function `find_native_limit` of `smart_context_test.py`, as a function
of the probed sizes and the endpoint behaviour at each probe.
`recommended_input = int(native_limit * 0.9)`. -/
def find_native_limit (probes : List (Nat × CallResult)) : SmartResult :=
  let r := findNativeAux probes 0 0 0 []
  { tests := r.1
    native_context := r.2.1
    hardware_limit := if r.2.2 = 0 then .notReached else .tokens r.2.2
    recommended_input := 9 * r.2.1 / 10 }

/-- The fixed ascending `test_sizes` list of `find_native_limit`. -/
def smartTestSizes : List Nat := [4096, 8192, 16384, 32768, 65536, 131072, 196608]

/-- Decides that the loop of `find_native_limit` consumes this whole probe
list without stopping: every probe succeeds and is neither truncated nor
plateaued relative to the running `prev_tokens` state. -/
def smartNoStop : Nat → List (Nat × CallResult) → Bool
  | _, [] => true
  | prev, (nc, call) :: rest =>
    let t := smart_test_context nc call
    t.success && !t.truncated && !(smartPlateau prev t.tokens_processed) &&
      smartNoStop t.tokens_processed rest

/-- The `prev_tokens` state after the loop of `find_native_limit` consumes a
probe list without stopping: the last probe's reported token count (or the
incoming state for an empty list). -/
def smartRunPrev (prev : Nat) (l : List (Nat × CallResult)) : Nat :=
  l.foldl (fun _ x => (smart_test_context x.1 x.2).tokens_processed) prev

/-- The probe loop of `test_output_limit` in `smart_context_test.py`, with
state `max_output`, over `(num_predict, call)` pairs.  On HTTP 200 with
reported `eval_count = output_tokens`: if `output_tokens < num_predict` and
`output_tokens <= max_output * 1.1` (scaled by 10) the loop breaks before
folding the observation in; otherwise `max_output` becomes
`max(max_output, output_tokens)` and the loop continues.  A non-200 status or
a raised exception breaks the loop. -/
def outputAux : List (Nat × CallResult) → Nat → Nat
  | [], m => m
  | (np, call) :: rest, m =>
    match call with
    | .response status _ ec _ =>
      if status = 200 then
        if ec < np ∧ 10 * ec ≤ 11 * m then m
        else outputAux rest (max m ec)
      else m
    | _ => m

/-- The `max_output` field of the result of `test_output_limit` in
`smart_context_test.py`. -/
def test_output_limit (probes : List (Nat × CallResult)) : Nat :=
  outputAux probes 0

/-- Decides that the loop of `test_output_limit` consumes this whole probe
list without stopping: every probe returns HTTP 200 and never satisfies the
break condition relative to the running `max_output` state. -/
def outNoStop : Nat → List (Nat × CallResult) → Bool
  | _, [] => true
  | m, (np, call) :: rest =>
    match call with
    | .response status _ ec _ =>
      status = 200 && !(decide (ec < np ∧ 10 * ec ≤ 11 * m)) && outNoStop (max m ec) rest
    | _ => false

/-- The `eval_count` the endpoint reports for a call, 0 when the call is not
an HTTP 200 response (such a probe contributes no observation). -/
def outTok : CallResult → Nat
  | .response 200 _ ec _ => ec
  | _ => 0

/-- The running `max_output` after folding in every observation of a probe
list: the plain maximum of the reported output token counts. -/
def outFold (m : Nat) (l : List (Nat × CallResult)) : Nat :=
  l.foldl (fun a x => max a (outTok x.2)) m

/-- An entry of the overall result list built by `main` of
`smart_context_test.py`: either the per-model result dict or the
`(model, error)` dict recorded when testing the model raised. -/
inductive RunEntry where
  | profile (model : String) (r : SmartResult)
  | failure (model : String) (err : String)
  deriving DecidableEq, Repr

/-- The per-model loop of `main` in `smart_context_test.py`: each model is
tested inside a try/except; a raised exception is recorded as an error entry
and the loop continues with the next model. -/
def mainLoop (models : List String) (run : String → Except String SmartResult) :
    List RunEntry :=
  models.map fun m =>
    match run m with
    | .ok r => .profile m r
    | .error e => .failure m e

/-! ## context_length_test.py -/

/-- The filler sentence `base` of `generate_test_prompt` (45 characters,
roughly 12 tokens per the comment in the source). -/
def basePhrase : String := "The quick brown fox jumps over the lazy dog. "

/-- The function `generate_test_prompt` of `context_length_test.py`: the
summarization preamble, `base` repeated `max(1, target_tokens // 12)` times,
and the `Summary:` coda. -/
def generate_test_prompt (target_tokens : Nat) : String :=
  "Please summarize the following text in 2-3 sentences:\n\n" ++
    String.join (List.replicate (max 1 (target_tokens / 12)) basePhrase) ++
    "\n\nSummary:"

/-- The function `count_tokens_approx` of `context_length_test.py`:
`len(text) // 4`. -/
def count_tokens_approx (text : String) : Nat := text.length / 4

/-- Result dict of `test_single_context` in `context_length_test.py` (the
fields the claims are about). -/
structure CtxOutcome where
  success : Bool
  actual_tokens_approx : Nat
  prompt_eval_count : Nat
  truncated : Bool
  error : String
  deriving DecidableEq, Repr

/-- The probe executor `test_single_context` of `context_length_test.py`.
HTTP 200 yields a success record with the reported `prompt_eval_count` and
the truncation flag against the synthesized prompt's approximate token count;
a non-200 status yields a failure record with reason
`"HTTP <status>: <text[:200]>"`; a raised `requests.Timeout` yields reason
`"Timeout after <timeout>s"`; any other raised exception yields reason
`str(e)`. -/
def test_single_context (target_tokens : Nat) (timeout : Nat) (call : CallResult) :
    CtxOutcome :=
  let actual := count_tokens_approx (generate_test_prompt target_tokens)
  match call with
  | .response status pe _ text =>
    if status = 200 then
      { success := true
        actual_tokens_approx := actual
        prompt_eval_count := pe
        truncated := ctxTruncated actual pe
        error := "" }
    else
      { success := false, actual_tokens_approx := 0, prompt_eval_count := 0,
        truncated := false,
        error := "HTTP " ++ toString status ++ ": " ++ text.take 200 }
  | .timeout _ =>
      { success := false, actual_tokens_approx := 0, prompt_eval_count := 0,
        truncated := false, error := "Timeout after " ++ toString timeout ++ "s" }
  | .transport msg =>
      { success := false, actual_tokens_approx := 0, prompt_eval_count := 0,
        truncated := false, error := msg }

/-- Phase 1 of `find_max_context` in `context_length_test.py`: probe the
listed target sizes with the server default window; on a non-truncated
success `default_max` becomes the reported `prompt_eval_count` and the loop
continues, on a truncated probe or a failed probe the loop breaks. -/
def ctxPhase1Aux : List (Nat × CallResult) → Nat → Nat
  | [], d => d
  | (target, call) :: rest, d =>
    let r := test_single_context target 180 call
    if r.success = true then
      if r.truncated = false then ctxPhase1Aux rest r.prompt_eval_count
      else d
    else d

/-- Phase 2 of `find_max_context` in `context_length_test.py`, with state
`(max_with_numctx, best_numctx)`, over `(num_ctx, call)` pairs; the prompt of
each probe targets `int(num_ctx * 0.9)` tokens.  On a success that improves on
`max_with_numctx` the state is updated and the loop continues; on a success
with no improvement the loop breaks when `prompt_eval <= max_with_numctx * 1.1`
(scaled by 10); on a failed probe the loop breaks. -/
def ctxPhase2Aux : List (Nat × CallResult) → Nat → Option Nat → Nat × Option Nat
  | [], m, b => (m, b)
  | (nc, call) :: rest, m, b =>
    let r := test_single_context (9 * nc / 10) 180 call
    if r.success = true then
      if r.prompt_eval_count > m then ctxPhase2Aux rest r.prompt_eval_count (some nc)
      else if 10 * r.prompt_eval_count ≤ 11 * m then (m, b)
      else ctxPhase2Aux rest m b
    else (m, b)

/-- Result dict of `find_max_context` in `context_length_test.py` (the fields
the claims are about). -/
structure CtxResult where
  default_context : Nat
  max_context_with_num_ctx : Nat
  optimal_num_ctx : Option Nat
  recommended_context : Nat
  deriving DecidableEq, Repr

/-- The function `find_max_context` of `context_length_test.py`, as a function
of the Phase-1 probes (target size, endpoint behaviour) and the Phase-2 probes
(num_ctx, endpoint behaviour).  Phase 2 starts from the Phase-1 value
`default_max`; `recommended_context = int(max_with_numctx * 0.8)`. -/
def find_max_context (phase1 : List (Nat × CallResult))
    (phase2 : List (Nat × CallResult)) : CtxResult :=
  let d := ctxPhase1Aux phase1 0
  let p := ctxPhase2Aux phase2 d none
  { default_context := d
    max_context_with_num_ctx := p.1
    optimal_num_ctx := p.2
    recommended_context := 8 * p.1 / 10 }

/-- The fixed ascending Phase-1 `test_sizes` list of `find_max_context`. -/
def ctxTestSizes : List Nat := [2000, 4000, 8000, 16000]

/-- The fixed ascending Phase-2 `num_ctx_values` list of `find_max_context`. -/
def ctxNumCtxValues : List Nat := [8192, 16384, 32768, 65536, 131072]

/-! ## batch_context_test.py -/

/-- The probe executor `test_context` of `batch_context_test.py`: HTTP 200
yields `(True, prompt_eval_count)`; a non-200 status yields
`(False, "HTTP <status>")`; a raised exception yields `(False, str(e)[:50])`. -/
def batch_test_context (call : CallResult) : Except String Nat :=
  match call with
  | .response status pe _ _ =>
    if status = 200 then .ok pe else .error ("HTTP " ++ toString status)
  | .timeout msg => .error (msg.take 50)
  | .transport msg => .error (msg.take 50)

/-- Result dict of `find_max_context` in `batch_context_test.py` (the fields
the claims are about). -/
structure BatchResult where
  max_num_ctx : Nat
  max_tokens : Nat
  recommended_ctx : Nat
  deriving DecidableEq, Repr

/-- The probe loop of `find_max_context` in `batch_context_test.py`, with
state `(max_successful, max_tokens)`, over `(num_ctx, call)` pairs: a success
records the probed `num_ctx` and the reported token count and continues, a
failed probe breaks. -/
def batchAux : List (Nat × CallResult) → Nat → Nat → Nat × Nat
  | [], ms, mt => (ms, mt)
  | (nc, call) :: rest, ms, mt =>
    match batch_test_context call with
    | .ok tokens => batchAux rest nc tokens
    | .error _ => (ms, mt)

/-- The function `find_max_context` of `batch_context_test.py`:
`recommended_ctx = int(max_successful * 0.85)` (the 85% safety margin of the
source). -/
def batch_find_max_context (probes : List (Nat × CallResult)) : BatchResult :=
  let p := batchAux probes 0 0
  { max_num_ctx := p.1
    max_tokens := p.2
    recommended_ctx := 85 * p.1 / 100 }

/-! ## Concrete endpoint behaviours used by the end-to-end scenarios -/

/-- Endpoint behaviour of the spec's end-to-end scenario for model "m1": the
window 4096 succeeds with 4090 reported tokens, 8192 succeeds with 8180,
and every larger window fails with a transport error. -/
def scenarioOracle (num_ctx : Nat) : CallResult :=
  if num_ctx = 4096 then .response 200 4090 0 ""
  else if num_ctx = 8192 then .response 200 8180 0 ""
  else .transport "connection refused"

end Fortemi

namespace Fortemi

/-! ## Helper lemmas -/

theorem length_foldl_append (l : List String) (acc : String) :
    (l.foldl (fun a b => a ++ b) acc).length = acc.length + (l.map String.length).sum := by
  induction l generalizing acc with
  | nil => simp
  | cons s rest ih => simp [List.foldl_cons, ih, String.length_append]; ring

theorem length_join_replicate (n : Nat) (s : String) :
    (String.join (List.replicate n s)).length = n * s.length := by
  simp [String.join, length_foldl_append, List.map_replicate, List.sum_replicate]

/-- Length of the synthesized prompt of `generate_test_prompt`: a 55-character
preamble, 45 characters per filler repetition, a 10-character coda. -/
theorem generate_test_prompt_length (t : Nat) :
    (generate_test_prompt t).length = 65 + 45 * max 1 (t / 12) := by
  have h1 : ("Please summarize the following text in 2-3 sentences:\n\n" : String).length = 55 := by
    decide
  have h2 : ("\n\nSummary:" : String).length = 10 := by decide
  have h3 : basePhrase.length = 45 := by decide
  simp [generate_test_prompt, String.length_append, length_join_replicate, h1, h2, h3]
  ring

/-- The approximate token count `test_single_context` computes for a target
size: the synthesized prompt's length divided by 4. -/
theorem count_generate (t : Nat) :
    count_tokens_approx (generate_test_prompt t) = (65 + 45 * max 1 (t / 12)) / 4 := by
  simp [count_tokens_approx, generate_test_prompt_length]

/-- The scaled-by-10 transcription of `tokens < input_approx * 0.8` agrees
with the exact rational reading of the source expression. -/
theorem smartTruncated_iff (ia t : Nat) :
    smartTruncated ia t = true ↔ (t : ℚ) < (ia : ℚ) * 0.8 := by
  rw [show (0.8 : ℚ) = ((8 : ℕ) : ℚ) / ((10 : ℕ) : ℚ) by norm_num]
  rw [smartTruncated, decide_eq_true_eq]
  have h : (((10 * t : ℕ) : ℚ) < ((8 * ia : ℕ) : ℚ)) ↔
      ((t : ℚ) < (ia : ℚ) * (((8 : ℕ) : ℚ) / ((10 : ℕ) : ℚ))) := by
    push_cast
    constructor <;> intro h <;> linarith
  rw [← h]
  exact Nat.cast_lt.symm

/-- The scaled-by-10 transcription of `prompt_eval < actual_tokens * 0.9`
agrees with the exact rational reading of the source expression. -/
theorem ctxTruncated_iff (a t : Nat) :
    ctxTruncated a t = true ↔ (t : ℚ) < (a : ℚ) * 0.9 := by
  rw [show (0.9 : ℚ) = ((9 : ℕ) : ℚ) / ((10 : ℕ) : ℚ) by norm_num]
  rw [ctxTruncated, decide_eq_true_eq]
  have h : (((10 * t : ℕ) : ℚ) < ((9 * a : ℕ) : ℚ)) ↔
      ((t : ℚ) < (a : ℚ) * (((9 : ℕ) : ℚ) / ((10 : ℕ) : ℚ))) := by
    push_cast
    constructor <;> intro h <;> linarith
  rw [← h]
  exact Nat.cast_lt.symm

/-- The scaled-by-10 transcription of `tokens <= prev * 1.1 and prev > 0`
agrees with the exact rational reading of the source expression. -/
theorem smartPlateau_iff (p t : Nat) :
    smartPlateau p t = true ↔ ((t : ℚ) ≤ (p : ℚ) * 1.1 ∧ 0 < p) := by
  rw [show (1.1 : ℚ) = ((11 : ℕ) : ℚ) / ((10 : ℕ) : ℚ) by norm_num]
  rw [smartPlateau, decide_eq_true_eq]
  have h : (((10 * t : ℕ) : ℚ) ≤ ((11 * p : ℕ) : ℚ)) ↔
      ((t : ℚ) ≤ (p : ℚ) * (((11 : ℕ) : ℚ) / ((10 : ℕ) : ℚ))) := by
    push_cast
    constructor <;> intro h <;> linarith
  rw [← h, Nat.cast_le]

/-- Nat division `a * n / b` is the floor of `n` times the rational `a / b`:
the form Python `int(n * (a/b))` takes for nonnegative values. -/
theorem nat_scale_div_eq_floor (a b n : ℕ) :
    a * n / b = ⌊(n : ℚ) * ((a : ℚ) / (b : ℚ))⌋₊ := by
  have h : (n : ℚ) * ((a : ℚ) / (b : ℚ)) = ((a * n : ℕ) : ℚ) / ((b : ℕ) : ℚ) := by
    push_cast; ring
  rw [h, Nat.floor_div_nat, Nat.floor_natCast]

theorem nat_scale_div_le (a b n : ℕ) (hab : a ≤ b) (hb : 0 < b) : a * n / b ≤ n := by
  calc a * n / b ≤ b * n / b := Nat.div_le_div_right (Nat.mul_le_mul_right n hab)
  _ = n := Nat.mul_div_cancel_left n hb

/-- The running best of Phase 2 of `find_max_context` never drops below its
starting value. -/
theorem ctxPhase2Aux_le (l : List (Nat × CallResult)) :
    ∀ m b, m ≤ (ctxPhase2Aux l m b).1 := by
  induction l with
  | nil => intro m b; simp [ctxPhase2Aux]
  | cons hd rest ih =>
    intro m b
    obtain ⟨nc, call⟩ := hd
    simp only [ctxPhase2Aux]
    split
    · split
      · next h => exact le_trans (le_of_lt h) (ih _ _)
      · split
        · simp
        · exact ih m b
    · simp

end Fortemi

namespace Fortemi

/-! ## Claim theorems -/

/-- C1: for every completed per-model result of `find_max_context` in
`context_length_test.py`, the recorded `max_context_with_num_ctx` is at least
the recorded `default_context`, for any sequence of probe outcomes in the
extended-window phase (and any Phase-1 outcomes): Phase 2 starts its running
best at `default_max` and only ever replaces it with a strictly larger
observation. -/
theorem c1_native_ge_default (phase1 phase2 : List (Nat × CallResult)) :
    (find_max_context phase1 phase2).default_context ≤
      (find_max_context phase1 phase2).max_context_with_num_ctx := by
  simp only [find_max_context]
  exact ctxPhase2Aux_le _ _ _

/-- C2: each truncation classifier reports truncated exactly when the observed
consumed tokens fall below the approximate requested size times a constant
threshold lying in the interval 0.8 to 0.9 — the threshold is 0.8 in
`smart_context_test.py` and 0.9 in `context_length_test.py` — and the probe of
the spec example, requesting about 16000 tokens with 9000 observed, is
classified truncated by both, also through the full `test_single_context`
pipeline. -/
theorem c2_truncation_rule :
    (∃ c : ℚ, (0.8 : ℚ) ≤ c ∧ c ≤ (0.9 : ℚ) ∧
      ∀ ia t : ℕ, smartTruncated ia t = true ↔ (t : ℚ) < (ia : ℚ) * c) ∧
    (∃ c : ℚ, (0.8 : ℚ) ≤ c ∧ c ≤ (0.9 : ℚ) ∧
      ∀ a t : ℕ, ctxTruncated a t = true ↔ (t : ℚ) < (a : ℚ) * c) ∧
    smartTruncated 16000 9000 = true ∧
    ctxTruncated 16000 9000 = true ∧
    (test_single_context 16000 180 (.response 200 9000 0 "")).truncated = true := by
  refine ⟨⟨0.8, le_refl _, by norm_num, smartTruncated_iff⟩,
    ⟨0.9, by norm_num, le_refl _, ctxTruncated_iff⟩, by decide, by decide, ?_⟩
  simp [test_single_context, count_generate, ctxTruncated]

/-- C5: the end-to-end scenario of the spec.  Under the endpoint behaviour
`scenarioOracle` (success with 4090 tokens at window 4096, success with 8180
at window 8192, transport failure at 16384), the extended-window search of
`find_native_limit` over the fixed `test_sizes` list terminates at the failed
probe recording `hardware_limit = 8180` and `native_context = 8180`, and the
Phase-2 loop of `context_length_test.py` on the same window/outcome sequence
records best observation 8180 with optimal window parameter 8192. -/
theorem c5_scenario :
    (find_native_limit (smartTestSizes.map fun n => (n, scenarioOracle n))).native_context
        = 8180 ∧
    (find_native_limit (smartTestSizes.map fun n => (n, scenarioOracle n))).hardware_limit
        = .tokens 8180 ∧
    ctxPhase2Aux [(4096, .response 200 4090 0 ""), (8192, .response 200 8180 0 ""),
        (16384, .transport "connection refused")] 0 none
      = (8180, some 8192) := by
  refine ⟨by decide, by decide, by decide⟩

/-- C6: in all three scripts the recommendation is the floor of the discovered
ceiling times a margin in the interval (0, 1] — 0.9 on `native_context` in
`smart_context_test.py`, 0.8 on `max_context_with_num_ctx` in
`context_length_test.py`, 0.85 on `max_num_ctx` in `batch_context_test.py` —
and therefore never exceeds the ceiling. -/
theorem c6_recommended_margin :
    (∀ probes, (find_native_limit probes).recommended_input =
        ⌊((find_native_limit probes).native_context : ℚ) * 0.9⌋₊ ∧
      (find_native_limit probes).recommended_input ≤
        (find_native_limit probes).native_context) ∧
    (∀ p1 p2, (find_max_context p1 p2).recommended_context =
        ⌊((find_max_context p1 p2).max_context_with_num_ctx : ℚ) * 0.8⌋₊ ∧
      (find_max_context p1 p2).recommended_context ≤
        (find_max_context p1 p2).max_context_with_num_ctx) ∧
    (∀ probes, (batch_find_max_context probes).recommended_ctx =
        ⌊((batch_find_max_context probes).max_num_ctx : ℚ) * 0.85⌋₊ ∧
      (batch_find_max_context probes).recommended_ctx ≤
        (batch_find_max_context probes).max_num_ctx) ∧
    ((0 : ℚ) < 0.9 ∧ (0.9 : ℚ) ≤ 1) ∧ ((0 : ℚ) < 0.8 ∧ (0.8 : ℚ) ≤ 1) ∧
    ((0 : ℚ) < 0.85 ∧ (0.85 : ℚ) ≤ 1) := by
  refine ⟨fun probes => ⟨?_, ?_⟩, fun p1 p2 => ⟨?_, ?_⟩, fun probes => ⟨?_, ?_⟩,
    by norm_num, by norm_num, by norm_num⟩
  · simp only [find_native_limit]
    rw [nat_scale_div_eq_floor 9 10]
    norm_num
  · simp only [find_native_limit]
    exact nat_scale_div_le 9 10 _ (by norm_num) (by norm_num)
  · simp only [find_max_context]
    rw [nat_scale_div_eq_floor 8 10]
    norm_num
  · simp only [find_max_context]
    exact nat_scale_div_le 8 10 _ (by norm_num) (by norm_num)
  · simp only [batch_find_max_context]
    rw [nat_scale_div_eq_floor 85 100]
    norm_num
  · simp only [batch_find_max_context]
    exact nat_scale_div_le 85 100 _ (by norm_num) (by norm_num)

end Fortemi

namespace Fortemi

/-- A probe list the loop of `find_native_limit` never stops on is consumed
whole: the loop then continues into the remainder with `prev_tokens` and
`native_limit` both equal to the last reported token count, the
`hardware_limit` state untouched, and the outcome records appended. -/
theorem findNativeAux_append (l : List (Nat × CallResult)) :
    ∀ rest prev hw acc, smartNoStop prev l = true →
      findNativeAux (l ++ rest) prev prev hw acc =
        findNativeAux rest (smartRunPrev prev l) (smartRunPrev prev l) hw
          ((l.map fun x => (x.1, smart_test_context x.1 x.2)).reverse ++ acc) := by
  induction l with
  | nil => intro rest prev hw acc _; simp [smartRunPrev]
  | cons hd tail ih =>
    intro rest prev hw acc h
    obtain ⟨nc, call⟩ := hd
    simp only [smartNoStop, Bool.and_eq_true, Bool.not_eq_true'] at h
    obtain ⟨⟨⟨hs, ht⟩, hp⟩, hrest⟩ := h
    simp only [List.cons_append, findNativeAux, hs, ht, hp, Bool.true_eq_false,
      Bool.false_eq_true, if_false, List.append_eq]
    rw [ih _ _ _ _ hrest]
    simp [smartRunPrev, List.reverse_cons, List.append_assoc]

/-- Along a run the loop of `find_native_limit` never stops on, the
`prev_tokens` state never decreases: the plateau test failing at a positive
state forces a strictly larger observation. -/
theorem smartRunPrev_ge (l : List (Nat × CallResult)) :
    ∀ prev, smartNoStop prev l = true → prev ≤ smartRunPrev prev l := by
  induction l with
  | nil => intro prev _; simp [smartRunPrev]
  | cons hd tail ih =>
    intro prev h
    obtain ⟨nc, call⟩ := hd
    simp only [smartNoStop, Bool.and_eq_true, Bool.not_eq_true'] at h
    obtain ⟨⟨⟨hs, ht⟩, hp⟩, hrest⟩ := h
    simp only [smartPlateau, decide_eq_false_iff_not] at hp
    have h1 : prev ≤ (smart_test_context nc call).tokens_processed := by omega
    have h2 := ih _ hrest
    simp only [smartRunPrev, List.foldl_cons] at h2 ⊢
    exact le_trans h1 h2

/-- A probe list the loop of `test_output_limit` never stops on is consumed
whole: the loop continues into the remainder with `max_output` equal to the
maximum of the incoming state and every reported output count. -/
theorem outputAux_append (l : List (Nat × CallResult)) :
    ∀ rest m, outNoStop m l = true →
      outputAux (l ++ rest) m = outputAux rest (outFold m l) := by
  induction l with
  | nil => intro rest m _; simp [outFold]
  | cons hd tail ih =>
    intro rest m h
    obtain ⟨np, call⟩ := hd
    cases call with
    | response status pe ec txt =>
      simp only [outNoStop, Bool.and_eq_true, Bool.not_eq_true', decide_eq_true_eq,
        decide_eq_false_iff_not] at h
      obtain ⟨⟨hst, hcond⟩, hrest⟩ := h
      simp only [List.cons_append, outputAux, hst, if_pos, if_true, List.append_eq]
      rw [if_neg hcond, ih _ _ hrest]
      simp [outFold, outTok, hst]
    | timeout msg => simp [outNoStop] at h
    | transport msg => simp [outNoStop] at h

end Fortemi

namespace Fortemi

/-- More helper facts: splitting a no-stop run of `find_native_limit` around
an append. -/
theorem smartNoStop_append (l1 : List (Nat × CallResult)) :
    ∀ l2 prev, smartNoStop prev (l1 ++ l2) = true →
      smartNoStop prev l1 = true ∧ smartNoStop (smartRunPrev prev l1) l2 = true := by
  induction l1 with
  | nil => intro l2 prev h; exact ⟨rfl, by simpa [smartRunPrev] using h⟩
  | cons hd tail ih =>
    intro l2 prev h
    obtain ⟨nc, call⟩ := hd
    simp only [List.cons_append, smartNoStop, Bool.and_eq_true] at h ⊢
    obtain ⟨hh, hrest⟩ := h
    have h2 := ih l2 _ hrest
    refine ⟨⟨hh, h2.1⟩, ?_⟩
    simpa [smartRunPrev] using h2.2

/-- On a probe list its loop never stops on, `find_native_limit` reports the
last observation as `native_context` and leaves `hardware_limit` at
`"not reached"`. -/
theorem find_native_limit_noStop (l : List (Nat × CallResult))
    (h : smartNoStop 0 l = true) :
    (find_native_limit l).native_context = smartRunPrev 0 l ∧
    (find_native_limit l).hardware_limit = .notReached := by
  have h2 := findNativeAux_append l [] 0 0 [] h
  rw [List.append_nil] at h2
  simp [find_native_limit, h2, findNativeAux]

/-- The running best of Phase 2 of `find_max_context` after a prefix of the
probe list never exceeds the best after the whole list. -/
theorem ctxPhase2Aux_append_le (l1 : List (Nat × CallResult)) :
    ∀ l2 m b, (ctxPhase2Aux l1 m b).1 ≤ (ctxPhase2Aux (l1 ++ l2) m b).1 := by
  induction l1 with
  | nil => intro l2 m b; simpa [ctxPhase2Aux] using ctxPhase2Aux_le l2 m b
  | cons hd rest ih =>
    intro l2 m b
    obtain ⟨nc, call⟩ := hd
    simp only [List.cons_append, ctxPhase2Aux]
    split
    · split
      · exact ih _ _ _
      · split
        · simp
        · exact ih _ _ _
    · simp

/-- C3 counterexample: in the Phase-2 loop of `find_max_context` of
`context_length_test.py`, a successful probe observing 31000 tokens against a
previous best of 30000 (31000 ≤ 30000 × 1.1) is NOT treated as plateaued: the
loop does not stop there, processes the next window, and raises the best to
40000 — had the probe been classified plateaued as the claim requires, the
search would have ended with best at most 31000 and no third window would have
been recorded as optimal. -/
theorem c3_counterexample :
    (find_max_context [] [(32768, .response 200 30000 0 ""),
        (65536, .response 200 31000 0 ""),
        (131072, .response 200 40000 0 "")]).max_context_with_num_ctx = 40000 ∧
    (find_max_context [] [(32768, .response 200 30000 0 ""),
        (65536, .response 200 31000 0 ""),
        (131072, .response 200 40000 0 "")]).optimal_num_ctx = some 131072 :=
  ⟨by decide, by decide⟩

/-- C3 (amended): the plateau rule `t ≤ p × 1.1 with a previous probe (p > 0)`
is exactly the classifier of the `find_native_limit` loop of
`smart_context_test.py`, and the spec example (previous best 30000, new
observation 31000) plateaus there, ending the search at `native_context =
31000`; in the Phase-2 loop of `find_max_context` of `context_length_test.py`,
however, the plateau break is only reachable on a successful probe with
`prompt_eval ≤ max_with_numctx`, where the `≤ max × 1.1` comparison is
vacuously true — that loop stops exactly when the new observation fails to
improve on the running best, and a 31000-token observation against best 30000
continues the search instead. -/
theorem c3_plateau_rule :
    (∀ p t : ℕ, smartPlateau p t = true ↔ ((t : ℚ) ≤ (p : ℚ) * 1.1 ∧ 0 < p)) ∧
    smartPlateau 30000 31000 = true ∧
    (find_native_limit [(4096, .response 200 30000 0 ""),
        (8192, .response 200 31000 0 ""),
        (16384, .response 200 99999 0 "")]).native_context = 31000 ∧
    (∀ m b nc pe ec txt rest, pe ≤ m →
      ctxPhase2Aux ((nc, .response 200 pe ec txt) :: rest) m b = (m, b)) ∧
    (∀ m b nc pe ec txt rest, m < pe →
      ctxPhase2Aux ((nc, .response 200 pe ec txt) :: rest) m b =
        ctxPhase2Aux rest pe (some nc)) := by
  refine ⟨smartPlateau_iff, by decide, by decide, ?_, ?_⟩
  · intro m b nc pe ec txt rest h
    simp only [ctxPhase2Aux, test_single_context]
    simp [Nat.not_lt.mpr h, show 10 * pe ≤ 11 * m by omega]
  · intro m b nc pe ec txt rest h
    simp only [ctxPhase2Aux, test_single_context]
    simp [h]

/-- Witness for the amended C3 claim at concrete inputs. -/
theorem c3_plateau_rule_witness :
    ctxPhase2Aux [(8192, CallResult.response 200 5000 0 "")] 6000 none = (6000, none) ∧
    ctxPhase2Aux [(8192, CallResult.response 200 7000 0 "")] 6000 none =
      ctxPhase2Aux [] 7000 (some 8192) :=
  ⟨c3_plateau_rule.2.2.2.1 6000 none 8192 5000 0 "" [] (by decide),
   c3_plateau_rule.2.2.2.2 6000 none 8192 7000 0 "" [] (by decide)⟩

/-- C4 counterexample: in `find_native_limit` of `smart_context_test.py` the
recorded native context DOES decrease on the probe that terminates the regime:
after a successful probe reporting 10000 tokens the recorded value is 10000,
but processing one further successful probe reporting 9000 tokens (not
truncated, since 9000 ≥ input_approx(8192) × 0.8 = 4096; plateaued, since
9000 ≤ 10000 × 1.1) overwrites the recorded native context with 9000. -/
theorem c4_counterexample :
    (find_native_limit [(4096, .response 200 10000 0 "")]).native_context = 10000 ∧
    (find_native_limit [(4096, .response 200 10000 0 ""),
        (8192, .response 200 9000 0 "")]).native_context = 9000 :=
  ⟨by decide, by decide⟩

/-- C4 (amended): best-so-far monotonicity holds unconditionally for
`max_with_numctx` in `find_max_context` of `context_length_test.py` (its
running best is only ever replaced by strictly larger observations), and for
`native_limit` in `find_native_limit` of `smart_context_test.py` it holds
across all successful non-terminating probes — but the truncated or plateaued
probe that terminates the smart regime overwrites `native_limit` with that
final observation, which can be smaller (see the counterexample). -/
theorem c4_monotonicity :
    (∀ p1 l1 l2, (find_max_context p1 l1).max_context_with_num_ctx ≤
        (find_max_context p1 (l1 ++ l2)).max_context_with_num_ctx) ∧
    (∀ l1 l2, smartNoStop 0 (l1 ++ l2) = true →
      (find_native_limit l1).native_context ≤
        (find_native_limit (l1 ++ l2)).native_context) := by
  constructor
  · intro p1 l1 l2
    simp only [find_max_context]
    exact ctxPhase2Aux_append_le l1 l2 _ _
  · intro l1 l2 h
    obtain ⟨h1, h2⟩ := smartNoStop_append l1 l2 0 h
    rw [(find_native_limit_noStop l1 h1).1, (find_native_limit_noStop (l1 ++ l2) h).1]
    have heq : smartRunPrev 0 (l1 ++ l2) = smartRunPrev (smartRunPrev 0 l1) l2 := by
      simp [smartRunPrev, List.foldl_append]
    rw [heq]
    exact smartRunPrev_ge l2 _ h2

/-- Witness for the amended C4 claim at concrete inputs. -/
theorem c4_monotonicity_witness :
    (find_max_context [] [(8192, CallResult.response 200 8000 0 "")]).max_context_with_num_ctx ≤
      (find_max_context [] ([(8192, CallResult.response 200 8000 0 "")] ++
        [(16384, CallResult.response 200 16000 0 "")])).max_context_with_num_ctx ∧
    (find_native_limit [(4096, CallResult.response 200 4090 0 "")]).native_context ≤
      (find_native_limit ([(4096, CallResult.response 200 4090 0 "")] ++
        [(8192, CallResult.response 200 8180 0 "")])).native_context :=
  ⟨c4_monotonicity.1 [] [(8192, .response 200 8000 0 "")]
      [(16384, .response 200 16000 0 "")],
   c4_monotonicity.2 [(4096, .response 200 4090 0 "")]
      [(8192, .response 200 8180 0 "")] (by decide)⟩

end Fortemi

namespace Fortemi

/-- C7 counterexample: in `test_output_limit` of `smart_context_test.py` the
recorded `max_output` is NOT the best observation over all successful probes
including the final one: with a first probe observing 1000 output tokens and a
second successful probe observing 1050 (which triggers the stop condition,
1050 < 2048 and 1050 ≤ 1000 × 1.1), the loop breaks before folding 1050 in and
records `max_output = 1000`, although the best observation over all successful
probes is 1050. -/
theorem c7_counterexample :
    test_output_limit [(1024, .response 200 0 1000 ""),
      (2048, .response 200 0 1050 "")] = 1000 ∧
    outFold 0 [(1024, .response 200 0 1000 ""),
      (2048, .response 200 0 1050 "")] = 1050 :=
  ⟨by decide, by decide⟩

/-- C7 (amended): the output-budget loop stops exactly when an observed output
count is both below the requested budget and at most the previous best × 1.1,
or on a failed probe, or on list exhaustion — and the recorded `max_output`
equals the maximum observed output over the successful probes processed
strictly before the terminating probe (on exhaustion that is every probe; the
observation of a probe that triggers the plateau stop or of the probes after
it is never folded in). -/
theorem c7_output_regime :
    (∀ l, outNoStop 0 l = true → test_output_limit l = outFold 0 l) ∧
    (∀ l np pe ec txt rest, outNoStop 0 l = true → ec < np →
      10 * ec ≤ 11 * outFold 0 l →
      test_output_limit (l ++ (np, .response 200 pe ec txt) :: rest) = outFold 0 l) ∧
    (∀ l np call rest, outNoStop 0 l = true →
      (∀ status pe ec txt, call = .response status pe ec txt → status ≠ 200) →
      test_output_limit (l ++ (np, call) :: rest) = outFold 0 l) := by
  refine ⟨?_, ?_, ?_⟩
  · intro l h
    have h2 := outputAux_append l [] 0 h
    rw [List.append_nil] at h2
    simp [test_output_limit, h2, outputAux]
  · intro l np pe ec txt rest h hlt hle
    rw [test_output_limit, outputAux_append l _ 0 h]
    simp [outputAux, hlt, hle]
  · intro l np call rest h hne
    rw [test_output_limit, outputAux_append l _ 0 h]
    cases call with
    | response status pe ec txt =>
      have := hne status pe ec txt rfl
      simp [outputAux, this]
    | timeout msg => simp [outputAux]
    | transport msg => simp [outputAux]

/-- Witness for the amended C7 claim at concrete inputs. -/
theorem c7_output_regime_witness :
    test_output_limit [(1024, CallResult.response 200 0 1000 "")] =
      outFold 0 [(1024, CallResult.response 200 0 1000 "")] ∧
    test_output_limit ([(1024, CallResult.response 200 0 1000 "")] ++
        [(2048, CallResult.response 200 0 1050 "")]) =
      outFold 0 [(1024, CallResult.response 200 0 1000 "")] ∧
    test_output_limit ([(1024, CallResult.response 200 0 1000 "")] ++
        [(2048, CallResult.transport "endpoint down")]) =
      outFold 0 [(1024, CallResult.response 200 0 1000 "")] :=
  ⟨c7_output_regime.1 [(1024, .response 200 0 1000 "")] (by decide),
   c7_output_regime.2.1 [(1024, .response 200 0 1000 "")] 2048 0 1050 "" []
     (by decide) (by decide) (by decide),
   c7_output_regime.2.2 [(1024, .response 200 0 1000 "")] 2048
     (.transport "endpoint down") [] (by decide)
     (fun status pe ec txt hcall => by cases hcall)⟩

/-- C8 counterexample: in `test_context` of `smart_context_test.py` a
per-call timeout and a connection/transport failure carrying the same
exception message produce bit-for-bit identical failure outcomes — the single
`except Exception` handler maps both to `str(e)[:50]`, so the two cases are
merged into one indistinguishable value, contrary to the claim. -/
theorem c8_counterexample :
    smart_test_context 8192 (.timeout "connection reset by peer") =
      smart_test_context 8192 (.transport "connection reset by peer") := rfl

set_option maxRecDepth 8192 in
/-- C8 (amended): neither executor ever raises to its caller — every
connection/transport failure, non-success HTTP status and per-call timeout
yields a success=false outcome with a populated reason.  In
`test_single_context` of `context_length_test.py` the three cases are handled
by three separate branches with reasons of three distinct forms
(`"Timeout after <t>s"`, `"HTTP <code>: <body[:200]>"`, and the transport
exception's message), pairwise distinct at representative inputs; in
`test_context` of `smart_context_test.py` the non-status failures (timeout
and transport) share one generic handler whose reason is the exception
message truncated to 50 characters, so those two cases are distinguished only
by message content (see the counterexample). -/
theorem c8_executor_failures :
    (∀ t tmo msg, (test_single_context t tmo (.timeout msg)).success = false ∧
      (test_single_context t tmo (.timeout msg)).error =
        "Timeout after " ++ toString tmo ++ "s") ∧
    (∀ t tmo status pe ec txt, status ≠ 200 →
      (test_single_context t tmo (.response status pe ec txt)).success = false ∧
      (test_single_context t tmo (.response status pe ec txt)).error =
        "HTTP " ++ toString status ++ ": " ++ txt.take 200) ∧
    (∀ t tmo msg, (test_single_context t tmo (.transport msg)).success = false ∧
      (test_single_context t tmo (.transport msg)).error = msg) ∧
    ((test_single_context 2000 180 (.timeout "x")).error ≠
      (test_single_context 2000 180 (.response 500 0 0 "oops")).error) ∧
    ((test_single_context 2000 180 (.timeout "x")).error ≠
      (test_single_context 2000 180 (.transport "connection reset")).error) ∧
    ((test_single_context 2000 180 (.response 500 0 0 "oops")).error ≠
      (test_single_context 2000 180 (.transport "connection reset")).error) ∧
    (∀ nc status pe ec txt, status ≠ 200 →
      (smart_test_context nc (.response status pe ec txt)).success = false ∧
      (smart_test_context nc (.response status pe ec txt)).error =
        "HTTP " ++ toString status) ∧
    (∀ nc msg, (smart_test_context nc (.timeout msg)).success = false ∧
      (smart_test_context nc (.timeout msg)).error = msg.take 50 ∧
      smart_test_context nc (.timeout msg) = smart_test_context nc (.transport msg)) := by
  refine ⟨fun t tmo msg => ⟨rfl, rfl⟩, ?_, fun t tmo msg => ⟨rfl, rfl⟩,
    by decide, by decide, by decide, ?_, ?_⟩
  · intro t tmo status pe ec txt h
    simp [test_single_context, h]
  · intro nc status pe ec txt h
    simp [smart_test_context, h]
  · intro nc msg
    refine ⟨rfl, ?_, rfl⟩
    simp [smart_test_context]

/-- Witness for the amended C8 claim at concrete inputs. -/
theorem c8_executor_failures_witness :
    (test_single_context 2000 180 (CallResult.response 500 0 0 "oops")).success = false ∧
    (test_single_context 2000 180 (CallResult.response 500 0 0 "oops")).error =
      "HTTP " ++ toString 500 ++ ": " ++ ("oops" : String).take 200 ∧
    (smart_test_context 4096 (CallResult.response 503 0 0 "x")).success = false :=
  ⟨(c8_executor_failures.2.1 2000 180 500 0 0 "oops" (by decide)).1,
   (c8_executor_failures.2.1 2000 180 500 0 0 "oops" (by decide)).2,
   (c8_executor_failures.2.2.2.2.2.2.1 4096 503 0 0 "x" (by decide)).1⟩

end Fortemi

namespace Fortemi

/-- C9: a model whose every probe fails still yields a result record from
`find_native_limit` — with `native_context = 0`, `recommended_input = 0`, and
the failed probe's outcome (carrying its failure reason) preserved in the
`tests` records — and the per-model loop of `main` produces exactly one entry
per requested model whether the model's run succeeded or raised, so the
overall run is never aborted by one model's failures. -/
theorem c9_zero_success (l : List (Nat × CallResult))
    (h : ∀ x ∈ l, (smart_test_context x.1 x.2).success = false) :
    (find_native_limit l).native_context = 0 ∧
    (find_native_limit l).recommended_input = 0 ∧
    (find_native_limit l).tests =
      (l.take 1).map (fun x => (x.1, smart_test_context x.1 x.2)) ∧
    ∀ models run, (mainLoop models run).length = models.length := by
  refine ⟨?_, ?_, ?_, fun models run => by simp [mainLoop]⟩ <;>
  · cases l with
    | nil => simp [find_native_limit, findNativeAux]
    | cons hd tl =>
      have hh := h hd (List.mem_cons_self hd tl)
      obtain ⟨nc, call⟩ := hd
      simp [find_native_limit, findNativeAux, hh]

/-- Witness for the C9 claim at concrete inputs: a model whose single probe
fails with a transport error, inside a two-model run in which testing both
models raises. -/
theorem c9_zero_success_witness :
    (find_native_limit [(4096, CallResult.transport "connection refused")]).native_context
      = 0 ∧
    (mainLoop ["m1", "m2"] fun _ => Except.error "endpoint down").length = 2 := by
  have h := c9_zero_success [(4096, .transport "connection refused")] (by decide)
  exact ⟨h.1, h.2.2.2 ["m1", "m2"] _⟩

/-- C10: the `hardware_limit` field of the `find_native_limit` result dict is
the integer token count of the last successful probe before a failed probe
only when that count is positive — the field never holds a nonpositive
integer (part 1), a failing very first probe yields the string
`"not reached"` (part 2), a failure after a no-stop run whose last observation
is positive yields that integer (part 3), and a run that never hits a failed
probe yields `"not reached"` (part 4) — so the field's type varies between an
integer and a string. -/
theorem c10_hardware_limit_field :
    (∀ l n, (find_native_limit l).hardware_limit = .tokens n → 0 < n) ∧
    (∀ nc call rest, (smart_test_context nc call).success = false →
      (find_native_limit ((nc, call) :: rest)).hardware_limit = .notReached) ∧
    (∀ l nc call rest, smartNoStop 0 l = true →
      (smart_test_context nc call).success = false → 0 < smartRunPrev 0 l →
      (find_native_limit (l ++ (nc, call) :: rest)).hardware_limit =
        .tokens (smartRunPrev 0 l)) ∧
    (∀ l, smartNoStop 0 l = true →
      (find_native_limit l).hardware_limit = .notReached) := by
  refine ⟨?_, ?_, ?_, fun l h => (find_native_limit_noStop l h).2⟩
  · intro l n h
    simp only [find_native_limit] at h
    split at h
    · exact absurd h (by simp)
    · next hz =>
      obtain rfl : (findNativeAux l 0 0 0 []).2.2 = n := by
        injection h
      omega
  · intro nc call rest hfail
    simp [find_native_limit, findNativeAux, hfail]
  · intro l nc call rest h hfail hpos
    simp only [find_native_limit]
    rw [findNativeAux_append l ((nc, call) :: rest) 0 0 [] h]
    simp [findNativeAux, hfail, Nat.pos_iff_ne_zero.mp hpos]

/-- Witness for the C10 claim at concrete inputs: a failing first probe gives
`"not reached"`; a timeout after a successful probe reporting 4090 tokens
gives the integer 4090, which is positive. -/
theorem c10_hardware_limit_field_witness :
    (find_native_limit [(4096, CallResult.transport "x")]).hardware_limit =
      HardwareLimitField.notReached ∧
    (find_native_limit ([(4096, CallResult.response 200 4090 0 "")] ++
      [(8192, CallResult.timeout "t")])).hardware_limit =
        HardwareLimitField.tokens 4090 ∧
    0 < 4090 := by
  have h2 := c10_hardware_limit_field.2.2.1 [(4096, .response 200 4090 0 "")]
    8192 (.timeout "t") [] (by decide) (by decide) (by decide)
  rw [show smartRunPrev 0 [(4096, CallResult.response 200 4090 0 "")] = 4090
    from by decide] at h2
  exact ⟨c10_hardware_limit_field.2.1 4096 (.transport "x") [] (by decide), h2,
    c10_hardware_limit_field.1 ([(4096, .response 200 4090 0 "")] ++
      [(8192, .timeout "t")]) 4090 h2⟩

end Fortemi
